import Mathlib

/-!
Verification of the invoice reconciliation engine of `src/app.py`.

The program reads a submission table and a remittance table, canonicalizes
column headers (strip + title-case, lines 50-51), validates required columns
(lines 53-60), coerces amounts with `pd.to_numeric(..., errors="coerce").fillna(0)`
(lines 63-64) and dates with `pd.to_datetime(..., dayfirst=True, errors='coerce').dt.date`
(lines 67-68), aggregates the submission by `["Month", "Invoice"]` and the
remittance by `["Invoice", "Payment Reference", "Settlement Date"]` summing
`Amount` (lines 71-76), left-joins on `"Invoice"` (lines 79-84), fills the
unmatched right-hand side with `0` / `"Pending"` and stringifies the settlement
date (lines 86-89), computes `Difference` (line 92) and a `Status` (lines 95-103).

This file embeds that pipeline shallowly: cells read as `Option String`
(`none` = a missing/NaN cell, since the frames are read with `dtype=str`),
amounts become `ℚ`, dates become `Option Date`.  `groupby` drops rows whose
key contains a missing value (pandas default `dropna=True`); group output
order here is first-appearance order of each key (pandas sorts group keys,
but no property below depends on the order of aggregated rows).
-/

/- Batteries seals the rational operations; reopening them lets concrete
pipeline runs be checked by `decide` (the kernel itself never consults
reducibility, so proofs are unaffected). -/
set_option allowUnsafeReducibility true in
attribute [semireducible] Rat.mul Rat.add Rat.sub Rat.div Rat.neg Rat.inv

/-- Characters are stripped from both ends, as Python `str.strip()`. -/
def stripChars (cs : List Char) : List Char :=
  ((cs.dropWhile Char.isWhitespace).reverse.dropWhile Char.isWhitespace).reverse

/-- Python `str.title()` on ASCII headers: an alphabetic character is
uppercased when the previous character is not alphabetic, lowercased
otherwise. -/
def titleChars : Bool → List Char → List Char
  | _, [] => []
  | prevAlpha, c :: cs =>
      (if c.isAlpha then (if prevAlpha then c.toLower else c.toUpper) else c)
        :: titleChars c.isAlpha cs

/-- Header canonicalization of lines 50-51:
`columns.str.strip().str.title()`. -/
def canonHeader (s : String) : String :=
  ⟨titleChars false (stripChars s.data)⟩

/-- Required submission columns after canonicalization (line 54). -/
def required_sub_cols : List String :=
  ["Month", "Invoice", "Member Id", "Transaction Date", "Amount"]

/-- Required remittance columns after canonicalization (line 55). -/
def required_rem_cols : List String :=
  ["Invoice", "Payment Reference", "Settlement Date", "Amount"]

/-- Value of a digit string, most significant first. -/
def digitsVal (cs : List Char) : Nat :=
  cs.foldl (fun n c => n * 10 + (c.toNat - 48)) 0

/-- A nonempty all-digit string parses to its value, anything else fails. -/
def natOfDigits (cs : List Char) : Option Nat :=
  if cs ≠ [] ∧ cs.all Char.isDigit then some (digitsVal cs) else none

/-- Unsigned decimal literal: integer part, optional `.` and fraction part.
At least one digit overall; a second `.` fails. -/
def parseUnsigned (body : List Char) : Option ℚ :=
  let ip := body.takeWhile (fun c => c ≠ '.')
  match body.dropWhile (fun c => c ≠ '.') with
  | [] =>
      if ip ≠ [] ∧ ip.all Char.isDigit then some (digitsVal ip) else none
  | _ :: fp =>
      if (ip ≠ [] ∨ fp ≠ []) ∧ ip.all Char.isDigit ∧ fp.all Char.isDigit ∧
          fp.all (fun c => c ≠ '.')
      then some ((digitsVal ip : ℚ) + (digitsVal fp : ℚ) / (10 : ℚ) ^ fp.length)
      else none

/-- Embedding of `pd.to_numeric(cell, errors="coerce")` restricted to plain signed decimal
literals: whitespace is stripped, an optional sign precedes the digits, and an
unparseable cell coerces to missing (`none`, pandas `NaN`). -/
def parseDecimal (s : String) : Option ℚ :=
  match stripChars s.data with
  | '-' :: rest => (parseUnsigned rest).map (fun q => -q)
  | '+' :: rest => parseUnsigned rest
  | cs => parseUnsigned cs

/-- Numeric coercion over a cell: a missing cell stays missing. -/
def toNumeric (cell : Option String) : Option ℚ :=
  cell.bind parseDecimal

/-- Lines 63-64: `pd.to_numeric(..., errors="coerce").fillna(0)`. -/
def amountFilled (cell : Option String) : ℚ :=
  (toNumeric cell).getD 0

/-- A calendar date. -/
structure Date where
  year : Nat
  month : Nat
  day : Nat
deriving DecidableEq, Repr

def pad2 (n : Nat) : String :=
  if n < 10 then "0" ++ toString n else toString n

def pad4 (n : Nat) : String :=
  if n < 10 then "000" ++ toString n
  else if n < 100 then "00" ++ toString n
  else if n < 1000 then "0" ++ toString n
  else toString n

/-- Python `str(datetime.date)`: ISO `YYYY-MM-DD`. -/
def Date.toIso (d : Date) : String :=
  pad4 d.year ++ "-" ++ pad2 d.month ++ "-" ++ pad2 d.day

/-- Embedding of `pd.to_datetime(cell, dayfirst=True, errors='coerce').dt.date` restricted
to the templates' `DD-MM-YYYY` shape: day first, then month, then year,
separated by `-`; out-of-range or non-numeric parts coerce to missing
(pandas `NaT`, here `none`). -/
def parseDate (s : String) : Option Date :=
  match (stripChars s.data).splitOn '-' with
  | [d, m, y] =>
      match natOfDigits d, natOfDigits m, natOfDigits y with
      | some dv, some mv, some yv =>
          if 1 ≤ dv ∧ dv ≤ 31 ∧ 1 ≤ mv ∧ mv ≤ 12 then
            some ⟨yv, mv, dv⟩
          else none
      | _, _, _ => none
  | _ => none

/-- Date coercion over a cell: a missing cell stays missing. -/
def toDatetime (cell : Option String) : Option Date :=
  cell.bind parseDate

/-- A raw submission row as read with `dtype=str` (line 39/41): every cell is
text or missing. -/
structure RawSubRow where
  month : Option String
  invoice : Option String
  memberId : Option String
  transactionDate : Option String
  amount : Option String
deriving DecidableEq, Repr

/-- A raw remittance row as read with `dtype=str` (line 45/47). -/
structure RawRemRow where
  invoice : Option String
  paymentReference : Option String
  settlementDate : Option String
  amount : Option String
deriving DecidableEq, Repr

/-- A submission row after the coercions of lines 63 and 67. -/
structure SubRow where
  month : Option String
  invoice : Option String
  memberId : Option String
  transactionDate : Option Date
  amount : ℚ
deriving DecidableEq, Repr

/-- A remittance row after the coercions of lines 64 and 68. -/
structure RemRow where
  invoice : Option String
  paymentReference : Option String
  settlementDate : Option Date
  amount : ℚ
deriving DecidableEq, Repr

/-- Lines 63 and 67 applied to one submission row. -/
def coerceSub (r : RawSubRow) : SubRow :=
  { month := r.month
    invoice := r.invoice
    memberId := r.memberId
    transactionDate := toDatetime r.transactionDate
    amount := amountFilled r.amount }

/-- Lines 64 and 68 applied to one remittance row. -/
def coerceRem (r : RawRemRow) : RemRow :=
  { invoice := r.invoice
    paymentReference := r.paymentReference
    settlementDate := toDatetime r.settlementDate
    amount := amountFilled r.amount }

/-- The `groupby(["Month", "Invoice"])` key of a submission row; `none` when
any key cell is missing (pandas `dropna=True` drops such rows). -/
def subKey (r : SubRow) : Option (String × String) :=
  match r.month, r.invoice with
  | some m, some i => some (m, i)
  | _, _ => none

/-- The `groupby(["Invoice", "Payment Reference", "Settlement Date"])` key of
a remittance row; `none` when any key cell is missing. -/
def remKey (r : RemRow) : Option (String × String × Date) :=
  match r.invoice, r.paymentReference, r.settlementDate with
  | some i, some p, some d => some (i, p, d)
  | _, _, _ => none

/-- First-appearance deduplication: keys already seen are skipped. -/
def dedupAux {K : Type} [DecidableEq K] : List K → List K → List K
  | _, [] => []
  | seen, k :: ks =>
      if k ∈ seen then dedupAux seen ks else k :: dedupAux (k :: seen) ks

/-- The distinct keys of a list, in order of first appearance. -/
def dedupKeys {K : Type} [DecidableEq K] (l : List K) : List K :=
  dedupAux [] l

/-- One row of `submission_agg` (lines 71-72). -/
structure SubAgg where
  month : String
  invoice : String
  submissionAmount : ℚ
deriving DecidableEq, Repr

/-- One row of `remittance_agg` (lines 75-76). -/
structure RemAgg where
  invoice : String
  paymentReference : String
  settlementDate : Date
  remittanceAmount : ℚ
deriving DecidableEq, Repr

/-- Lines 71-72: group the submission by `["Month", "Invoice"]`, summing
`Amount` into `Submission_Amount`; rows with a missing key cell are dropped. -/
def submission_agg (rows : List SubRow) : List SubAgg :=
  (dedupKeys (rows.filterMap subKey)).map (fun k =>
    { month := k.1
      invoice := k.2
      submissionAmount :=
        ((rows.filter (fun r => subKey r = some k)).map SubRow.amount).sum })

/-- Lines 75-76: group the remittance by
`["Invoice", "Payment Reference", "Settlement Date"]`, summing `Amount` into
`Remittance_Amount`; rows with a missing key cell are dropped. -/
def remittance_agg (rows : List RemRow) : List RemAgg :=
  (dedupKeys (rows.filterMap remKey)).map (fun k =>
    { invoice := k.1
      paymentReference := k.2.1
      settlementDate := k.2.2
      remittanceAmount :=
        ((rows.filter (fun r => remKey r = some k)).map RemRow.amount).sum })

/-- A row of the merged frame (lines 79-84) before the fills of lines 86-89:
right-hand fields are missing (`NaN`) on an unmatched left row. -/
structure MergedRow where
  month : String
  invoice : String
  submissionAmount : ℚ
  paymentReference : Option String
  settlementDate : Option Date
  remittanceAmount : Option ℚ
deriving DecidableEq, Repr

/-- The merged row produced for a left row with no match. -/
def unmatchedRow (s : SubAgg) : MergedRow :=
  { month := s.month
    invoice := s.invoice
    submissionAmount := s.submissionAmount
    paymentReference := none
    settlementDate := none
    remittanceAmount := none }

/-- The merged row produced for a left row and one matching right row. -/
def matchedRow (s : SubAgg) (r : RemAgg) : MergedRow :=
  { month := s.month
    invoice := s.invoice
    submissionAmount := s.submissionAmount
    paymentReference := some r.paymentReference
    settlementDate := some r.settlementDate
    remittanceAmount := some r.remittanceAmount }

/-- All output rows of `pd.merge(..., on="Invoice", how="left")` arising from
one left row: one row per matching right row, or a single row with missing
right-hand fields when no right row matches. -/
def joinBlock (rs : List RemAgg) (s : SubAgg) : List MergedRow :=
  let ms := rs.filter (fun r => r.invoice = s.invoice)
  if ms.isEmpty then [unmatchedRow s] else ms.map (matchedRow s)

/-- Lines 79-84: the left outer join on `"Invoice"`, left order preserved. -/
def merge_left (ls : List SubAgg) (rs : List RemAgg) : List MergedRow :=
  ls.flatMap (joinBlock rs)

/-- Python `str(cell)` over the settlement-date column after the merge: a date prints
as ISO, the missing-value marker the merge inserted (the float `NaN`) prints
as `"nan"`. -/
def pyStrCell : Option Date → String
  | some d => d.toIso
  | none => "nan"

/-- Line 89: `result["Settlement Date"].astype(str).replace("NaT", "")` —
stringify, then replace cells that equal `"NaT"` by the empty string. -/
def settlementStr (o : Option Date) : String :=
  if pyStrCell o = "NaT" then "" else pyStrCell o

/-- Lines 95-103: `get_status` — a pure function of `Remittance_Amount`
and `Difference`, evaluated in that order. -/
def get_status (remAmt diff : ℚ) : String :=
  if remAmt = 0 then "Pending from Insurance"
  else if diff = 0 then "Matched"
  else "Not Matched"

/-- Modelled from the spec: the MATCHED equality test performed at currency
precision — the difference is rounded to whole cents before the comparison
with zero ("use exact decimal arithmetic or round before comparison"). -/
def get_status_currency (remAmt diff : ℚ) : String :=
  if remAmt = 0 then "Pending from Insurance"
  else if round (diff * 100) = 0 then "Matched"
  else "Not Matched"

/-- One row of the final `result` frame (column order of lines 106-109). -/
structure ResultRow where
  month : String
  invoice : String
  paymentReference : String
  settlementDate : String
  submissionAmount : ℚ
  remittanceAmount : ℚ
  difference : ℚ
  status : String
deriving DecidableEq, Repr

/-- Lines 86-103 applied to one merged row: fill `Remittance_Amount` with 0,
`Payment Reference` with `"Pending"`, stringify `Settlement Date`, compute
`Difference` and `Status`. -/
def finalizeRow (m : MergedRow) : ResultRow :=
  let remAmt := m.remittanceAmount.getD 0
  let diff := m.submissionAmount - remAmt
  { month := m.month
    invoice := m.invoice
    paymentReference := m.paymentReference.getD "Pending"
    settlementDate := settlementStr m.settlementDate
    submissionAmount := m.submissionAmount
    remittanceAmount := remAmt
    difference := diff
    status := get_status remAmt diff }

/-- The whole post-validation pipeline (lines 63-109): coerce, aggregate,
left-join, fill, classify. -/
def reconcileRows (sub : List RawSubRow) (rem : List RawRemRow) : List ResultRow :=
  (merge_left (submission_agg (sub.map coerceSub))
              (remittance_agg (rem.map coerceRem))).map finalizeRow

/-- Lines 53-60 followed by the pipeline: header validation short-circuits
with the exact `st.error` message before anything is aggregated. -/
def run_app (subHeaders remHeaders : List String)
    (sub : List RawSubRow) (rem : List RawRemRow) : Except String (List ResultRow) :=
  if ¬ required_sub_cols.all (fun c => (subHeaders.map canonHeader).contains c) then
    Except.error "❌ Submission file must have columns: Month, Invoice, Member ID, Transaction Date, Amount"
  else if ¬ required_rem_cols.all (fun c => (remHeaders.map canonHeader).contains c) then
    Except.error "❌ Remittance file must have columns: Invoice, Payment Reference, Settlement Date, Amount"
  else
    Except.ok (reconcileRows sub rem)

/-- The required columns of a file that its canonicalized headers do not
provide (the spec's notion of the exact missing column names). -/
def missing_sub_cols (subHeaders : List String) : List String :=
  required_sub_cols.filter (fun c => ¬ (subHeaders.map canonHeader).contains c)

/-- Missing required remittance columns. -/
def missing_rem_cols (remHeaders : List String) : List String :=
  required_rem_cols.filter (fun c => ¬ (remHeaders.map canonHeader).contains c)

/-! ### Basic lemmas about deduplication, aggregation and the join -/

theorem mem_dedupAux {K : Type} [DecidableEq K] (k : K) (l : List K) :
    ∀ seen : List K, k ∈ dedupAux seen l ↔ k ∈ l ∧ k ∉ seen := by
  induction l with
  | nil => intro seen; simp [dedupAux]
  | cons a l ih =>
    intro seen
    by_cases ha : a ∈ seen
    · rw [dedupAux, if_pos ha, ih seen]
      simp only [List.mem_cons]
      constructor
      · rintro ⟨hk, hns⟩
        exact ⟨Or.inr hk, hns⟩
      · rintro ⟨rfl | hk, hns⟩
        · exact (hns ha).elim
        · exact ⟨hk, hns⟩
    · rw [dedupAux, if_neg ha]
      simp only [List.mem_cons, ih (a :: seen)]
      constructor
      · rintro (rfl | ⟨hk, hns⟩)
        · exact ⟨Or.inl rfl, ha⟩
        · exact ⟨Or.inr hk, fun h => hns (Or.inr h)⟩
      · rintro ⟨rfl | hk, hns⟩
        · exact Or.inl rfl
        · by_cases hka : k = a
          · exact Or.inl hka
          · exact Or.inr ⟨hk, fun h => h.elim hka hns⟩

theorem nodup_dedupAux {K : Type} [DecidableEq K] (l : List K) :
    ∀ seen : List K, (dedupAux seen l).Nodup := by
  induction l with
  | nil => intro seen; simp [dedupAux]
  | cons a l ih =>
    intro seen
    by_cases ha : a ∈ seen
    · rw [dedupAux, if_pos ha]; exact ih seen
    · rw [dedupAux, if_neg ha]
      refine List.nodup_cons.mpr ⟨fun hmem => ?_, ih (a :: seen)⟩
      exact ((mem_dedupAux a l (a :: seen)).mp hmem).2 (List.mem_cons_self a seen)

theorem mem_dedupKeys {K : Type} [DecidableEq K] {k : K} {l : List K} :
    k ∈ dedupKeys l ↔ k ∈ l := by
  rw [dedupKeys, mem_dedupAux]
  simp

theorem nodup_dedupKeys {K : Type} [DecidableEq K] (l : List K) :
    (dedupKeys l).Nodup :=
  nodup_dedupAux l []

theorem subKey_eq_some {r : SubRow} {k : String × String} (h : subKey r = some k) :
    r.month = some k.1 ∧ r.invoice = some k.2 := by
  cases hm : r.month with
  | none => rw [subKey, hm] at h; simp at h
  | some m =>
    cases hi : r.invoice with
    | none => rw [subKey, hm, hi] at h; simp at h
    | some i =>
      rw [subKey, hm, hi] at h
      cases h
      simp [hm, hi]

theorem remKey_eq_some {r : RemRow} {k : String × String × Date}
    (h : remKey r = some k) :
    r.invoice = some k.1 ∧ r.paymentReference = some k.2.1 ∧
      r.settlementDate = some k.2.2 := by
  cases hi : r.invoice with
  | none => rw [remKey, hi] at h; simp at h
  | some i =>
    cases hp : r.paymentReference with
    | none => rw [remKey, hi, hp] at h; simp at h
    | some p =>
      cases hd : r.settlementDate with
      | none => rw [remKey, hi, hp, hd] at h; simp at h
      | some d =>
        rw [remKey, hi, hp, hd] at h
        cases h
        simp [hi, hp, hd]

theorem submission_agg_key_map (rows : List SubRow) :
    (submission_agg rows).map (fun s => (s.month, s.invoice))
      = dedupKeys (rows.filterMap subKey) := by
  rw [submission_agg, List.map_map]
  have hcomp :
      ((fun s : SubAgg => (s.month, s.invoice)) ∘
        (fun k : String × String =>
          ({ month := k.1, invoice := k.2,
             submissionAmount :=
               ((rows.filter (fun r => subKey r = some k)).map SubRow.amount).sum } : SubAgg)))
        = id := by
    funext k
    rfl
  rw [hcomp, List.map_id]

theorem remittance_agg_key_map (rows : List RemRow) :
    (remittance_agg rows).map (fun r => (r.invoice, r.paymentReference, r.settlementDate))
      = dedupKeys (rows.filterMap remKey) := by
  rw [remittance_agg, List.map_map]
  have hcomp :
      ((fun r : RemAgg => (r.invoice, r.paymentReference, r.settlementDate)) ∘
        (fun k : String × String × Date =>
          ({ invoice := k.1, paymentReference := k.2.1, settlementDate := k.2.2,
             remittanceAmount :=
               ((rows.filter (fun r => remKey r = some k)).map RemRow.amount).sum } : RemAgg)))
        = id := by
    funext k
    rfl
  rw [hcomp, List.map_id]

theorem submission_agg_keys_pairwise (rows : List SubRow) :
    (submission_agg rows).Pairwise
      (fun a b => (a.month, a.invoice) ≠ (b.month, b.invoice)) := by
  have h := nodup_dedupKeys (rows.filterMap subKey)
  rw [← submission_agg_key_map rows] at h
  exact List.pairwise_map.mp h

theorem remittance_agg_keys_pairwise (rows : List RemRow) :
    (remittance_agg rows).Pairwise
      (fun a b =>
        (a.invoice, a.paymentReference, a.settlementDate)
          ≠ (b.invoice, b.paymentReference, b.settlementDate)) := by
  have h := nodup_dedupKeys (rows.filterMap remKey)
  rw [← remittance_agg_key_map rows] at h
  exact List.pairwise_map.mp h

theorem submission_agg_amount {rows : List SubRow} {s : SubAgg}
    (hs : s ∈ submission_agg rows) :
    s.submissionAmount =
      ((rows.filter (fun r => subKey r = some (s.month, s.invoice))).map SubRow.amount).sum := by
  rw [submission_agg] at hs
  obtain ⟨k, _, rfl⟩ := List.mem_map.mp hs
  rfl

theorem remittance_agg_amount {rows : List RemRow} {a : RemAgg}
    (ha : a ∈ remittance_agg rows) :
    a.remittanceAmount =
      ((rows.filter (fun r =>
          remKey r = some (a.invoice, a.paymentReference, a.settlementDate))).map
        RemRow.amount).sum := by
  rw [remittance_agg] at ha
  obtain ⟨k, _, rfl⟩ := List.mem_map.mp ha
  rfl

theorem submission_agg_invoice_mem {rows : List SubRow} {s : SubAgg}
    (hs : s ∈ submission_agg rows) :
    ∃ r ∈ rows, r.invoice = some s.invoice := by
  rw [submission_agg] at hs
  obtain ⟨k, hk, rfl⟩ := List.mem_map.mp hs
  obtain ⟨r, hr, hkey⟩ := List.mem_filterMap.mp (mem_dedupKeys.mp hk)
  exact ⟨r, hr, (subKey_eq_some hkey).2⟩

theorem remittance_agg_invoice_mem {rows : List RemRow} {a : RemAgg}
    (ha : a ∈ remittance_agg rows) :
    ∃ r ∈ rows, r.invoice = some a.invoice := by
  rw [remittance_agg] at ha
  obtain ⟨k, hk, rfl⟩ := List.mem_map.mp ha
  obtain ⟨r, hr, hkey⟩ := List.mem_filterMap.mp (mem_dedupKeys.mp hk)
  exact ⟨r, hr, (remKey_eq_some hkey).1⟩

theorem joinBlock_fields {rs : List RemAgg} {s : SubAgg} {m : MergedRow}
    (hm : m ∈ joinBlock rs s) :
    m.month = s.month ∧ m.invoice = s.invoice ∧
      m.submissionAmount = s.submissionAmount := by
  rw [joinBlock] at hm
  by_cases he : (rs.filter (fun r => r.invoice = s.invoice)).isEmpty
  · rw [if_pos he] at hm
    rcases List.mem_singleton.mp hm with rfl
    exact ⟨rfl, rfl, rfl⟩
  · rw [if_neg he] at hm
    obtain ⟨r, _, rfl⟩ := List.mem_map.mp hm
    exact ⟨rfl, rfl, rfl⟩

theorem joinBlock_length (rs : List RemAgg) (s : SubAgg) :
    1 ≤ (joinBlock rs s).length := by
  rw [joinBlock]
  by_cases he : (rs.filter (fun r => r.invoice = s.invoice)).isEmpty
  · rw [if_pos he]; simp
  · rw [if_neg he, List.length_map]
    have : rs.filter (fun r => r.invoice = s.invoice) ≠ [] := by
      intro h
      exact he (by simp [h])
    exact List.length_pos.mpr this

theorem joinBlock_no_match {rs : List RemAgg} {s : SubAgg}
    (h : rs.filter (fun r => r.invoice = s.invoice) = []) :
    joinBlock rs s = [unmatchedRow s] := by
  rw [joinBlock, h]
  rfl

theorem joinBlock_nil (s : SubAgg) : joinBlock [] s = [unmatchedRow s] :=
  joinBlock_no_match rfl

theorem merge_left_length (ls : List SubAgg) (rs : List RemAgg) :
    ls.length ≤ (merge_left ls rs).length := by
  induction ls with
  | nil => simp [merge_left]
  | cons s ls ih =>
    rw [merge_left, List.flatMap_cons, List.length_append]
    have h1 := joinBlock_length rs s
    have h2 : ls.length ≤ (merge_left ls rs).length := ih
    rw [merge_left] at h2
    calc (s :: ls).length = 1 + ls.length := by rw [List.length_cons]; omega
    _ ≤ (joinBlock rs s).length + (ls.flatMap (joinBlock rs)).length := by omega

theorem merge_left_nil_right (ls : List SubAgg) :
    merge_left ls [] = ls.map unmatchedRow := by
  induction ls with
  | nil => rfl
  | cons s ls ih =>
    rw [merge_left, List.flatMap_cons, joinBlock_nil]
    rw [merge_left] at ih
    rw [ih]
    rfl

theorem merge_left_fields {ls : List SubAgg} {rs : List RemAgg} {m : MergedRow}
    (hm : m ∈ merge_left ls rs) :
    ∃ s ∈ ls, m.month = s.month ∧ m.invoice = s.invoice ∧
      m.submissionAmount = s.submissionAmount := by
  obtain ⟨s, hs, hmem⟩ := List.mem_flatMap.mp hm
  exact ⟨s, hs, joinBlock_fields hmem⟩

theorem merge_left_mem {ls : List SubAgg} {rs : List RemAgg} {s : SubAgg}
    (hs : s ∈ ls) :
    ∃ m ∈ merge_left ls rs, m.month = s.month ∧ m.invoice = s.invoice ∧
      m.submissionAmount = s.submissionAmount := by
  have hne : joinBlock rs s ≠ [] := by
    intro h
    have := joinBlock_length rs s
    rw [h] at this
    simp at this
  obtain ⟨m, hm⟩ := List.exists_mem_of_ne_nil _ hne
  exact ⟨m, List.mem_flatMap.mpr ⟨s, hs, hm⟩, joinBlock_fields hm⟩

theorem submission_agg_cons_none {r : SubRow} (rows : List SubRow)
    (h : subKey r = none) :
    submission_agg (r :: rows) = submission_agg rows := by
  rw [submission_agg, submission_agg, List.filterMap_cons_none h]
  refine List.map_congr_left (fun k _ => ?_)
  simp [List.filter_cons, h]

theorem remittance_agg_cons_none {r : RemRow} (rows : List RemRow)
    (h : remKey r = none) :
    remittance_agg (r :: rows) = remittance_agg rows := by
  rw [remittance_agg, remittance_agg, List.filterMap_cons_none h]
  refine List.map_congr_left (fun k _ => ?_)
  simp [List.filter_cons, h]

theorem merge_left_filter_unmatched {ls : List SubAgg} {rs : List RemAgg}
    {s : SubAgg}
    (hnd : ls.Pairwise (fun a b => (a.month, a.invoice) ≠ (b.month, b.invoice)))
    (hs : s ∈ ls)
    (hno : rs.filter (fun r => r.invoice = s.invoice) = []) :
    (merge_left ls rs).filter (fun m => m.month = s.month ∧ m.invoice = s.invoice)
      = [unmatchedRow s] := by
  induction ls with
  | nil => cases hs
  | cons a ls ih =>
    rw [merge_left, List.flatMap_cons, List.filter_append]
    rcases List.mem_cons.mp hs with rfl | hs2
    · have h1 : (joinBlock rs s).filter
          (fun m => m.month = s.month ∧ m.invoice = s.invoice) = [unmatchedRow s] := by
        rw [joinBlock_no_match hno]
        simp [unmatchedRow]
      have h2 : ((ls.flatMap (joinBlock rs)).filter
          (fun m => m.month = s.month ∧ m.invoice = s.invoice)) = [] := by
        rw [List.filter_eq_nil_iff]
        intro m hm
        obtain ⟨t, ht, hf1, hf2, _⟩ :=
          merge_left_fields (show m ∈ merge_left ls rs from hm)
        have hts := (List.pairwise_cons.mp hnd).1 t ht
        simp only [decide_eq_true_eq, not_and]
        intro e1 e2
        exact hts (by rw [← hf1, ← hf2, e1, e2])
      rw [h1, h2, List.append_nil]
    · have ha := (List.pairwise_cons.mp hnd).1 s hs2
      have h1 : (joinBlock rs a).filter
          (fun m => m.month = s.month ∧ m.invoice = s.invoice) = [] := by
        rw [List.filter_eq_nil_iff]
        intro m hm
        obtain ⟨hf1, hf2, _⟩ := joinBlock_fields hm
        simp only [decide_eq_true_eq, not_and]
        intro e1 e2
        exact ha (by rw [← hf1, ← hf2, e1, e2])
      rw [h1, List.nil_append]
      exact ih (List.pairwise_cons.mp hnd).2 hs2

/-! ### Claim theorems -/

/-- C1 counterexample: one submission aggregation key (`2025-01`, `INV001`)
against a remittance where that invoice carries two payment references — the
left join emits two reconciliation rows, not one, so the row count exceeds the
number of distinct submission aggregation keys. -/
theorem C1_cex :
    (reconcileRows
        [⟨some "2025-01", some "INV001", some "1", some "22-10-2025", some "100"⟩]
        [⟨some "INV001", some "REF001", some "24-10-2025", some "50"⟩,
         ⟨some "INV001", some "REF002", some "24-10-2025", some "50"⟩]).length = 2
    ∧ (submission_agg
        ([⟨some "2025-01", some "INV001", some "1", some "22-10-2025", some "100"⟩].map
          coerceSub)).length = 1 := by
  decide

/-- C1 (amended): the left join never drops a submission aggregate — every
aggregated submission row appears in the output at least once with its
left-side fields unchanged, and the row count equals the number of distinct
submission aggregation keys whenever the remittance input is empty (an invoice
matching several remittance aggregates is duplicated once per match). -/
theorem C1_left_preservation (sub : List RawSubRow) (rem : List RawRemRow) :
    (submission_agg (sub.map coerceSub)).length ≤ (reconcileRows sub rem).length
    ∧ (∀ s ∈ submission_agg (sub.map coerceSub),
        ∃ row ∈ reconcileRows sub rem,
          row.month = s.month ∧ row.invoice = s.invoice ∧
            row.submissionAmount = s.submissionAmount)
    ∧ (reconcileRows sub []).length = (submission_agg (sub.map coerceSub)).length := by
  refine ⟨?_, ?_, ?_⟩
  · rw [reconcileRows, List.length_map]
    exact merge_left_length _ _
  · intro s hs
    obtain ⟨m, hm, h1, h2, h3⟩ :=
      @merge_left_mem (submission_agg (sub.map coerceSub))
        (remittance_agg (rem.map coerceRem)) s hs
    exact ⟨finalizeRow m, List.mem_map_of_mem _ hm, h1, h2, h3⟩
  · rw [reconcileRows, List.length_map]
    show (merge_left _ (remittance_agg ([].map coerceRem))).length = _
    rw [show remittance_agg ([].map coerceRem) = [] from rfl, merge_left_nil_right,
      List.length_map]

/-- C1 witness: the amended statement applied to Scenario B's input. -/
theorem C1_witness :
    ∃ row ∈ reconcileRows
        [⟨some "2025-03", some "INV003", some "11111", some "24-10-2025", some "1500"⟩] [],
      row.month = "2025-03" ∧ row.invoice = "INV003" ∧ row.submissionAmount = 1500 :=
  (C1_left_preservation
      [⟨some "2025-03", some "INV003", some "11111", some "24-10-2025", some "1500"⟩] []).2.1
    ⟨"2025-03", "INV003", 1500⟩ (by decide)

/-- C2: the status of every reconciliation row is `"Pending from Insurance"`
when `Remittance_Amount = 0`, else `"Matched"` when `Difference = 0`, else
`"Not Matched"`, evaluated in that order as a pure function of the row's
amounts; and a submission aggregate with no matching remittance aggregate
yields a row with status `"Pending from Insurance"` (the PENDING of the
PENDING_AWARE policy). -/
theorem C2_status_rule (sub : List RawSubRow) (rem : List RawRemRow) :
    (∀ row ∈ reconcileRows sub rem,
      row.status =
        if row.remittanceAmount = 0 then "Pending from Insurance"
        else if row.difference = 0 then "Matched"
        else "Not Matched")
    ∧ (∀ s ∈ submission_agg (sub.map coerceSub),
        (remittance_agg (rem.map coerceRem)).filter
            (fun r => r.invoice = s.invoice) = [] →
        ∃ row ∈ reconcileRows sub rem,
          row.month = s.month ∧ row.invoice = s.invoice ∧
            row.status = "Pending from Insurance") := by
  constructor
  · intro row hrow
    obtain ⟨m, _, rfl⟩ := List.mem_map.mp hrow
    rfl
  · intro s hs hno
    refine ⟨finalizeRow (unmatchedRow s), ?_, rfl, rfl, rfl⟩
    refine List.mem_map_of_mem _ (List.mem_flatMap.mpr ⟨s, hs, ?_⟩)
    rw [joinBlock_no_match hno]
    exact List.mem_singleton.mpr rfl

/-- C2 witness: Scenario B — submission `INV003` with no matching remittance
gets status `"Pending from Insurance"`. -/
theorem C2_witness :
    ∃ row ∈ reconcileRows
        [⟨some "2025-03", some "INV003", some "11111", some "24-10-2025", some "1500"⟩] [],
      row.month = "2025-03" ∧ row.invoice = "INV003" ∧
        row.status = "Pending from Insurance" :=
  (C2_status_rule
      [⟨some "2025-03", some "INV003", some "11111", some "24-10-2025", some "1500"⟩] []).2
    ⟨"2025-03", "INV003", 1500⟩ (by decide) (by decide)

/-- C3 counterexample: submitted `100.001` against received `100` — the code's
`get_status` compares the exact difference `1/1000` with zero and returns
`"Not Matched"`, while a comparison at currency precision (two decimal places)
would find zero cents of difference and return `"Matched"`: the equality test
that decides MATCHED is not performed at currency precision. -/
theorem C3_cex :
    reconcileRows
        [⟨some "2025-01", some "INV001", some "1", some "22-10-2025", some "100.001"⟩]
        [⟨some "INV001", some "REF001", some "24-10-2025", some "100"⟩]
      = [⟨"2025-01", "INV001", "REF001", "2025-10-24", 100 + 1/1000, 100, 1/1000,
          "Not Matched"⟩]
    ∧ get_status_currency 100 (1/1000) = "Matched"
    ∧ get_status 100 (1/1000) = "Not Matched" := by
  refine ⟨by decide, by decide, by decide⟩

/-- C3 (amended): for every reconciliation row, `Difference` equals
`Submission_Amount - Remittance_Amount` exactly in the embedded (exact)
arithmetic, and the status is `"Matched"` precisely when `Remittance_Amount`
is nonzero and the unrounded difference is exactly zero — no rounding to
currency precision is performed before the comparison. -/
theorem C3_difference_invariant (sub : List RawSubRow) (rem : List RawRemRow) :
    ∀ row ∈ reconcileRows sub rem,
      row.difference = row.submissionAmount - row.remittanceAmount
      ∧ (row.status = "Matched" ↔ row.remittanceAmount ≠ 0 ∧ row.difference = 0) := by
  intro row hrow
  obtain ⟨m, _, rfl⟩ := List.mem_map.mp hrow
  refine ⟨rfl, ?_⟩
  simp only [finalizeRow, get_status]
  split_ifs with h0 hd
  · simp [h0]
  · simp [h0, hd]
  · simp [h0, hd]

/-- C3 witness: the amended statement applied to Scenario C's matched row. -/
theorem C3_witness :
    (⟨"2025-02", "INV002", "REF002", "2025-10-25", 2000, 2000, 0, "Matched"⟩ :
        ResultRow).difference
      = (⟨"2025-02", "INV002", "REF002", "2025-10-25", 2000, 2000, 0, "Matched"⟩ :
        ResultRow).submissionAmount -
        (⟨"2025-02", "INV002", "REF002", "2025-10-25", 2000, 2000, 0, "Matched"⟩ :
        ResultRow).remittanceAmount
    ∧ ((⟨"2025-02", "INV002", "REF002", "2025-10-25", 2000, 2000, 0, "Matched"⟩ :
        ResultRow).status = "Matched"
      ↔ (⟨"2025-02", "INV002", "REF002", "2025-10-25", 2000, 2000, 0, "Matched"⟩ :
        ResultRow).remittanceAmount ≠ 0
        ∧ (⟨"2025-02", "INV002", "REF002", "2025-10-25", 2000, 2000, 0, "Matched"⟩ :
        ResultRow).difference = 0) :=
  C3_difference_invariant
    [⟨some "2025-02", some "INV002", some "56789", some "23-10-2025", some "2000"⟩]
    [⟨some "INV002", some "REF002", some "25-10-2025", some "2000"⟩]
    _ (by decide)

/-- C4: within one aggregation pass each distinct key appears at most once in
the aggregated output, and the aggregated amount of a key is the sum of the
amounts of all coerced input rows sharing that key — on the submission side
(key `Month, Invoice`) and on the remittance side
(key `Invoice, Payment Reference, Settlement Date`). -/
theorem C4_grouping (subRows : List SubRow) (remRows : List RemRow) :
    (submission_agg subRows).Pairwise
      (fun a b => ¬(a.month = b.month ∧ a.invoice = b.invoice))
    ∧ (∀ s ∈ submission_agg subRows,
        s.submissionAmount =
          ((subRows.filter (fun r => subKey r = some (s.month, s.invoice))).map
            SubRow.amount).sum)
    ∧ (remittance_agg remRows).Pairwise
      (fun a b => ¬(a.invoice = b.invoice ∧ a.paymentReference = b.paymentReference
          ∧ a.settlementDate = b.settlementDate))
    ∧ (∀ a ∈ remittance_agg remRows,
        a.remittanceAmount =
          ((remRows.filter (fun r =>
              remKey r = some (a.invoice, a.paymentReference, a.settlementDate))).map
            RemRow.amount).sum) := by
  refine ⟨?_, fun s hs => submission_agg_amount hs, ?_,
    fun a ha => remittance_agg_amount ha⟩
  · refine (submission_agg_keys_pairwise subRows).imp (fun hne => ?_)
    rintro ⟨h1, h2⟩
    exact hne (by rw [h1, h2])
  · refine (remittance_agg_keys_pairwise remRows).imp (fun hne => ?_)
    rintro ⟨h1, h2, h3⟩
    exact hne (by rw [h1, h2, h3])

/-- C4 witness: two submission rows sharing key (`2025-01`, `INV001`) sum to a
single aggregate of 300. -/
theorem C4_witness :
    (⟨"2025-01", "INV001", 300⟩ : SubAgg).submissionAmount =
      ((([⟨some "2025-01", some "INV001", none, none, 100⟩,
          ⟨some "2025-01", some "INV001", none, none, 200⟩] :
          List SubRow).filter
        (fun r => subKey r = some
          ((⟨"2025-01", "INV001", 300⟩ : SubAgg).month,
           (⟨"2025-01", "INV001", 300⟩ : SubAgg).invoice))).map SubRow.amount).sum :=
  (C4_grouping
      [⟨some "2025-01", some "INV001", none, none, 100⟩,
       ⟨some "2025-01", some "INV001", none, none, 200⟩] []).2.1
    ⟨"2025-01", "INV001", 300⟩ (by decide)

/-- C5: an aggregated submission row whose invoice matches no remittance
aggregate yields exactly one joined row; in that row the right-hand side is
missing at the join (`Settlement Date` is null, no date), the fills of lines
86-89 then set `Remittance_Amount = 0` and `Payment Reference = "Pending"`,
and the join leaves every left-side field (`Month`, `Invoice`,
`Submission_Amount`) unchanged — as it does on every joined row. -/
theorem C5_unmatched_defaults (sub : List RawSubRow) (rem : List RawRemRow) :
    (∀ m ∈ merge_left (submission_agg (sub.map coerceSub))
        (remittance_agg (rem.map coerceRem)),
      ∃ s ∈ submission_agg (sub.map coerceSub),
        m.month = s.month ∧ m.invoice = s.invoice ∧
          m.submissionAmount = s.submissionAmount)
    ∧ ∀ s ∈ submission_agg (sub.map coerceSub),
        (remittance_agg (rem.map coerceRem)).filter
            (fun r => r.invoice = s.invoice) = [] →
        ((merge_left (submission_agg (sub.map coerceSub))
              (remittance_agg (rem.map coerceRem))).filter
            (fun m => m.month = s.month ∧ m.invoice = s.invoice)
          = [unmatchedRow s]
        ∧ (unmatchedRow s).settlementDate = none
        ∧ (unmatchedRow s).paymentReference = none
        ∧ (unmatchedRow s).remittanceAmount = none
        ∧ finalizeRow (unmatchedRow s) =
            ⟨s.month, s.invoice, "Pending", settlementStr none, s.submissionAmount, 0,
              s.submissionAmount, "Pending from Insurance"⟩) := by
  constructor
  · intro m hm
    exact merge_left_fields hm
  · intro s hs hno
    refine ⟨merge_left_filter_unmatched ?_ hs hno, rfl, rfl, rfl, ?_⟩
    · refine (submission_agg_keys_pairwise _).imp (fun hne => hne)
    · simp [finalizeRow, unmatchedRow, get_status]

/-- C5 witness: Scenario B's unmatched submission row, concretely. -/
theorem C5_witness :
    (merge_left (submission_agg
          ([⟨some "2025-03", some "INV003", some "11111", some "24-10-2025",
              some "1500"⟩].map coerceSub))
        (remittance_agg ([].map coerceRem))).filter
      (fun m => m.month = "2025-03" ∧ m.invoice = "INV003")
      = [unmatchedRow ⟨"2025-03", "INV003", 1500⟩]
    ∧ finalizeRow (unmatchedRow ⟨"2025-03", "INV003", 1500⟩) =
        ⟨"2025-03", "INV003", "Pending", settlementStr none, 1500, 0, 1500,
          "Pending from Insurance"⟩ := by
  have h := (C5_unmatched_defaults
      [⟨some "2025-03", some "INV003", some "11111", some "24-10-2025", some "1500"⟩]
      []).2 ⟨"2025-03", "INV003", 1500⟩ (by decide) (by decide)
  exact ⟨h.1, h.2.2.2.2⟩

/-- C6 counterexample: a submission file missing only `Month` and one missing
only `Amount` produce the same error value — the failure message is the fixed
list of required columns, so it does not report which columns are actually
missing. -/
theorem C6_cex :
    missing_sub_cols ["Invoice", "Member ID", "Transaction Date", "Amount"] = ["Month"]
    ∧ missing_sub_cols ["Month", "Invoice", "Member ID", "Transaction Date"] = ["Amount"]
    ∧ run_app ["Invoice", "Member ID", "Transaction Date", "Amount"]
        required_rem_cols [] []
      = run_app ["Month", "Invoice", "Member ID", "Transaction Date"]
        required_rem_cols [] [] := by
  exact ⟨by decide, by decide, rfl⟩

theorem missing_sub_cols_eq_nil {hs : List String} :
    missing_sub_cols hs = []
      ↔ required_sub_cols.all
          (fun c => (hs.map canonHeader).contains c) = true := by
  rw [missing_sub_cols, List.filter_eq_nil_iff, List.all_eq_true]
  simp

theorem missing_rem_cols_eq_nil {hs : List String} :
    missing_rem_cols hs = []
      ↔ required_rem_cols.all
          (fun c => (hs.map canonHeader).contains c) = true := by
  rw [missing_rem_cols, List.filter_eq_nil_iff, List.all_eq_true]
  simp

/-- C6 (amended): if, after header canonicalization (strip + title-case), a
required column is missing from the submission (resp. the remittance, with a
valid submission), the run fails before any aggregation with the fixed error
message naming that file's full required column set — not the specific missing
columns — and no reconciliation rows are computed. -/
theorem C6_schema_validation (subHeaders remHeaders : List String)
    (sub : List RawSubRow) (rem : List RawRemRow) :
    (missing_sub_cols subHeaders ≠ [] →
      run_app subHeaders remHeaders sub rem =
        Except.error "❌ Submission file must have columns: Month, Invoice, Member ID, Transaction Date, Amount")
    ∧ (missing_sub_cols subHeaders = [] → missing_rem_cols remHeaders ≠ [] →
      run_app subHeaders remHeaders sub rem =
        Except.error "❌ Remittance file must have columns: Invoice, Payment Reference, Settlement Date, Amount") := by
  constructor
  · intro hmiss
    have hall : ¬ required_sub_cols.all
        (fun c => (subHeaders.map canonHeader).contains c) = true := by
      intro hcontra
      exact hmiss (missing_sub_cols_eq_nil.mpr hcontra)
    rw [run_app, if_pos hall]
  · intro hsub hrem
    have hsall : required_sub_cols.all
        (fun c => (subHeaders.map canonHeader).contains c) = true :=
      missing_sub_cols_eq_nil.mp hsub
    have hrall : ¬ required_rem_cols.all
        (fun c => (remHeaders.map canonHeader).contains c) = true := by
      intro hcontra
      exact hrem (missing_rem_cols_eq_nil.mpr hcontra)
    rw [run_app, if_neg (fun hc => hc hsall), if_pos hrall]

/-- C6 witness: the amended statement applied to a header set missing `Month`. -/
theorem C6_witness :
    run_app ["Invoice", "Member ID", "Transaction Date", "Amount"]
        required_rem_cols
        [⟨some "2025-01", some "INV001", some "1", some "22-10-2025", some "100"⟩] []
      = Except.error "❌ Submission file must have columns: Month, Invoice, Member ID, Transaction Date, Amount" :=
  (C6_schema_validation ["Invoice", "Member ID", "Transaction Date", "Amount"]
      required_rem_cols
      [⟨some "2025-01", some "INV001", some "1", some "22-10-2025", some "100"⟩] []).1
    (by decide)

/-- C7: an amount cell that does not parse as a decimal number coerces to `0`
(`to_numeric(..., errors="coerce").fillna(0)`), and with valid headers the run
always completes with a result — a single unparseable amount never fails the
batch. -/
theorem C7_coercion_tolerance (cell : Option String) (h : toNumeric cell = none)
    (subHeaders remHeaders : List String)
    (sub : List RawSubRow) (rem : List RawRemRow)
    (hsub : missing_sub_cols subHeaders = [])
    (hrem : missing_rem_cols remHeaders = []) :
    amountFilled cell = 0
    ∧ run_app subHeaders remHeaders sub rem =
        Except.ok (reconcileRows sub rem) := by
  constructor
  · rw [amountFilled, h]
    rfl
  · have hsall := missing_sub_cols_eq_nil.mp hsub
    have hrall := missing_rem_cols_eq_nil.mp hrem
    rw [run_app, if_neg (fun hc => hc hsall), if_neg (fun hc => hc hrall)]

/-- C7 witness: a submission whose amount cell reads `"abc"` still reconciles,
with the amount coerced to `0`. -/
theorem C7_witness :
    amountFilled (some "abc") = 0
    ∧ run_app ["Month", "Invoice", "Member ID", "Transaction Date", "Amount"]
        ["Invoice", "Payment Reference", "Settlement Date", "Amount"]
        [⟨some "2025-01", some "INV001", some "1", some "22-10-2025", some "abc"⟩] []
      = Except.ok (reconcileRows
          [⟨some "2025-01", some "INV001", some "1", some "22-10-2025", some "abc"⟩] []) :=
  C7_coercion_tolerance (some "abc") (by decide)
    ["Month", "Invoice", "Member ID", "Transaction Date", "Amount"]
    ["Invoice", "Payment Reference", "Settlement Date", "Amount"]
    [⟨some "2025-01", some "INV001", some "1", some "22-10-2025", some "abc"⟩] []
    (by decide) (by decide)

/-- C8 counterexample: a remittance invoice `"inv001"` differing from the
submitted `"INV001"` only in letter case does not join — the submission row
comes out unmatched with `Remittance_Amount = 0` — and two submission invoices
differing only in surrounding whitespace form two distinct aggregation keys. -/
theorem C8_cex :
    reconcileRows
        [⟨some "2025-01", some "INV001", some "1", some "22-10-2025", some "100"⟩]
        [⟨some "inv001", some "REF001", some "24-10-2025", some "100"⟩]
      = [⟨"2025-01", "INV001", "Pending", "nan", 100, 0, 100, "Pending from Insurance"⟩]
    ∧ (submission_agg
        ([⟨some "2025-01", some "INV001", some "1", some "22-10-2025", some "100"⟩,
          ⟨some "2025-01", some " INV001", some "1", some "22-10-2025", some "100"⟩].map
          coerceSub)).length = 2 := by
  decide

/-- C8 (amended): invoice keys are compared exactly (case- and
whitespace-sensitively) when grouping and joining: whenever every remittance
invoice cell differs as a raw string from every submission invoice cell — even
if they agree up to case or surrounding whitespace — no row joins, and every
reconciliation row carries the unmatched defaults. -/
theorem C8_exact_keys (sub : List RawSubRow) (rem : List RawRemRow)
    (h : ∀ si ∈ sub.filterMap RawSubRow.invoice,
      ∀ ri ∈ rem.filterMap RawRemRow.invoice, si ≠ ri) :
    ∀ row ∈ reconcileRows sub rem,
      row.remittanceAmount = 0 ∧ row.paymentReference = "Pending"
        ∧ row.status = "Pending from Insurance" := by
  intro row hrow
  obtain ⟨m, hm, rfl⟩ := List.mem_map.mp hrow
  obtain ⟨s, hs, hmb⟩ := List.mem_flatMap.mp hm
  have hfilter : (remittance_agg (rem.map coerceRem)).filter
      (fun r => r.invoice = s.invoice) = [] := by
    rw [List.filter_eq_nil_iff]
    intro a ha
    simp only [decide_eq_true_eq]
    intro heq
    obtain ⟨rr, hrr, hri⟩ := remittance_agg_invoice_mem ha
    obtain ⟨rraw, hrraw, rfl⟩ := List.mem_map.mp hrr
    obtain ⟨sr, hsr, hsi⟩ := submission_agg_invoice_mem hs
    obtain ⟨sraw, hsraw, rfl⟩ := List.mem_map.mp hsr
    exact h s.invoice (List.mem_filterMap.mpr ⟨sraw, hsraw, hsi⟩)
      a.invoice (List.mem_filterMap.mpr ⟨rraw, hrraw, hri⟩) heq.symm
  rw [joinBlock_no_match hfilter] at hmb
  rcases List.mem_singleton.mp hmb with rfl
  exact ⟨rfl, rfl, rfl⟩

/-- C8 witness: the amended statement applied to the case-differing pair
`INV001` / `inv001`. -/
theorem C8_witness :
    (∀ si ∈ ([⟨some "2025-01", some "INV001", some "1", some "22-10-2025",
        some "100"⟩] : List RawSubRow).filterMap RawSubRow.invoice,
      ∀ ri ∈ ([⟨some "inv001", some "REF001", some "24-10-2025", some "100"⟩] :
        List RawRemRow).filterMap RawRemRow.invoice, si ≠ ri)
    ∧ ∀ row ∈ reconcileRows
        [⟨some "2025-01", some "INV001", some "1", some "22-10-2025", some "100"⟩]
        [⟨some "inv001", some "REF001", some "24-10-2025", some "100"⟩],
      row.remittanceAmount = 0 ∧ row.paymentReference = "Pending"
        ∧ row.status = "Pending from Insurance" :=
  ⟨by decide, C8_exact_keys
    [⟨some "2025-01", some "INV001", some "1", some "22-10-2025", some "100"⟩]
    [⟨some "inv001", some "REF001", some "24-10-2025", some "100"⟩] (by decide)⟩

/-- C9: dates present in the output serialize as `YYYY-MM-DD`, but the
settlement date of an unmatched submission serializes as the string `"nan"` —
the fill value the merge inserts stringifies as `"nan"` while line 89's
`.replace("NaT", "")` only blanks the token `"NaT"`, so the null-marker `"nan"`
leaks into the output instead of the empty string. -/
theorem C9_null_marker :
    (reconcileRows
        [⟨some "2025-03", some "INV003", some "11111", some "24-10-2025", some "1500"⟩]
        []).map ResultRow.settlementDate = ["nan"]
    ∧ settlementStr (some ⟨2025, 10, 24⟩) = "2025-10-24"
    ∧ settlementStr none = "nan" := by
  decide

/-- C10 (implicit): rows whose aggregation-key cells are missing or
unparseable are silently dropped by `groupby` — a remittance row whose key
fails to coerce (unparseable settlement date or empty payment reference)
contributes nothing to any output, and a submission row with an empty `Month`
produces no reconciliation row at all. -/
theorem C10_dropped_keys (sub : List RawSubRow) (rem : List RawRemRow)
    (bs : RawSubRow) (br : RawRemRow) :
    (remKey (coerceRem br) = none →
      reconcileRows sub (br :: rem) = reconcileRows sub rem)
    ∧ (subKey (coerceSub bs) = none →
      reconcileRows (bs :: sub) rem = reconcileRows sub rem)
    ∧ (bs.month = none → reconcileRows [bs] rem = []) := by
  refine ⟨?_, ?_, ?_⟩
  · intro h
    rw [reconcileRows, reconcileRows, List.map_cons,
      remittance_agg_cons_none _ h]
  · intro h
    rw [reconcileRows, reconcileRows, List.map_cons,
      submission_agg_cons_none _ h]
  · intro h
    have hk : subKey (coerceSub bs) = none := by
      rw [subKey]
      show (match bs.month, (coerceSub bs).invoice with
        | some m, some i => some (m, i) | _, _ => none) = none
      rw [h]
    rw [reconcileRows, List.map_cons, List.map_nil,
      submission_agg_cons_none _ hk]
    rfl

/-- C10 witness: a remittance row with unparseable settlement date and a
submission row with empty month vanish from concrete runs. -/
theorem C10_witness :
    (reconcileRows
        [⟨some "2025-01", some "INV001", some "1", some "22-10-2025", some "100"⟩]
        [⟨some "INV001", some "REF001", some "31-13-2025", some "100"⟩,
         ⟨some "INV001", some "REF002", some "24-10-2025", some "100"⟩]
      = reconcileRows
        [⟨some "2025-01", some "INV001", some "1", some "22-10-2025", some "100"⟩]
        [⟨some "INV001", some "REF002", some "24-10-2025", some "100"⟩])
    ∧ reconcileRows [⟨none, some "INV002", some "1", none, some "50"⟩]
        [⟨some "INV002", some "REF002", some "24-10-2025", some "100"⟩] = [] := by
  constructor
  · exact (C10_dropped_keys
      [⟨some "2025-01", some "INV001", some "1", some "22-10-2025", some "100"⟩]
      [⟨some "INV001", some "REF002", some "24-10-2025", some "100"⟩]
      ⟨none, none, none, none, none⟩
      ⟨some "INV001", some "REF001", some "31-13-2025", some "100"⟩).1 (by decide)
  · exact (C10_dropped_keys []
      [⟨some "INV002", some "REF002", some "24-10-2025", some "100"⟩]
      ⟨none, some "INV002", some "1", none, some "50"⟩
      ⟨none, none, none, none⟩).2.2 (by decide)

example : canonHeader "  member ID " = "Member Id" := by decide
example : parseDecimal "100.001" = some (100001 / 1000 : ℚ) := by decide
example : parseDecimal "abc" = none := by decide
example : parseDate "22-10-2025" = some ⟨2025, 10, 22⟩ := by decide
example : parseDate "31-13-2025" = none := by decide
example : settlementStr (some ⟨2025, 10, 24⟩) = "2025-10-24" := by decide
example : settlementStr none = "nan" := by decide
